import Mathlib

/-!
# Verification of the WebExport-IFET translation core and feedback relay

Shallow embedding of the two source files of the repository:

* `src/ifet/lang.js` — locale detection (`detectLanguage`) and DOM string
  substitution (`translatePage`), embedded in namespace `Lang`;
* `src/api/ifet/feedback.js` — the serverless feedback relay (`handler`,
  `corsHeaders`, `getAllowedOrigins`, `safeStr`, `formatMessage`),
  embedded in namespace `Feedback`.

JavaScript strings are modelled as `String` / `List Char` with the relevant
JS primitives (`trim`, `toLowerCase`, `split`, `slice`, `includes`, the
truthiness-based `||` operator) defined explicitly for the ASCII fragment the
program exercises.  The browser / edge-runtime environment (URL parameter
extraction, the DOM tree, HTTP effects) is abstracted into explicit inputs
and outputs, following the capability-interface decomposition the spec
itself prescribes for non-browser targets.
-/

namespace Lang

/-- JS whitespace test for the characters `trim` removes (ASCII fragment of
the ECMAScript WhiteSpace / LineTerminator classes). -/
def wsChar (c : Char) : Bool :=
  c = ' ' || c = '\t' || c = '\n' || c = '\r' || c = '\x0b' || c = '\x0c'

/-- Left part of JS `String.prototype.trim`. -/
def trimLeft (l : List Char) : List Char := l.dropWhile wsChar

/-- Right part of JS `String.prototype.trim`. -/
def trimRight (l : List Char) : List Char := (l.reverse.dropWhile wsChar).reverse

/-- JS `String.prototype.trim`: drop leading and trailing whitespace. -/
def jsTrim (l : List Char) : List Char := trimRight (trimLeft l)

/-- JS `String.prototype.toLowerCase` on one character (ASCII fragment). -/
def lowerChar (c : Char) : Char :=
  if 'A' ≤ c && c ≤ 'Z' then Char.ofNat (c.toNat + 32) else c

/-- JS `String.prototype.toLowerCase` (ASCII fragment). -/
def jsLower (l : List Char) : List Char := l.map lowerChar

/-- JS `s.split('-')[0]`: the part of the string before the first hyphen
(the whole string when no hyphen occurs). -/
def takeBeforeHyphen (l : List Char) : List Char :=
  l.takeWhile (fun c => c ≠ '-')

/-- Constant `SUPPORTED_LOCALES` from `src/ifet/lang.js`. -/
def SUPPORTED_LOCALES : List (List Char) :=
  ["ar", "bn", "de", "en", "es", "fr", "hi", "ja", "ko", "pt", "ru", "zh"].map String.data

/-- Constant `DEFAULT_LOCALE` from `src/ifet/lang.js`. -/
def DEFAULT_LOCALE : List Char := "en".data

/-- The normalization pipeline both branches of `detectLanguage` apply to a
raw candidate value: `raw.trim().toLowerCase().split('-')[0]`. -/
def normalizeLang (raw : List Char) : List Char :=
  takeBeforeHyphen (jsLower (jsTrim raw))

/-- Outcome of a JS expression that can throw: either a value or a thrown
exception (caught by the surrounding `try`/`catch`). -/
inductive JsResult (α : Type) where
  | ok : α → JsResult α
  | thrown : JsResult α
deriving DecidableEq, Repr

/-- Function `detectLanguage` from `src/ifet/lang.js`, with the two
browser-environment reads abstracted into explicit inputs:

* `primary` — what `new URLSearchParams(window.location.search).get('lang')`
  yields: the parameter value (`some`), `none` when the parameter is absent,
  or `thrown` when the URL machinery throws;
* `fallback` — what the regex match `[?&]lang=([^&#]+)` over
  `window.location.href` followed by `decodeURIComponent` yields: the decoded
  captured value (`some`, necessarily nonempty in the source because the
  capture is `[^&#]+` and guarded by `m && m[1]`), `none` when there is no
  match, or `thrown` when decoding throws.

A thrown exception at either point lands in the source's `catch` block,
which swallows it and falls through to `return DEFAULT_LOCALE`.  The
embedding is total, so the function itself never fails. -/
def detectLanguage (primary fallback : JsResult (Option (List Char))) : List Char :=
  match primary with
  | .thrown => DEFAULT_LOCALE
  | .ok p =>
    let normalized := normalizeLang (p.getD [])
    if SUPPORTED_LOCALES.contains normalized then normalized
    else
      match fallback with
      | .thrown => DEFAULT_LOCALE
      | .ok none => DEFAULT_LOCALE
      | .ok (some m) =>
        let fromHref := normalizeLang m
        if SUPPORTED_LOCALES.contains fromHref then fromHref else DEFAULT_LOCALE

/-- JS `a || b` where `a` is an optional (possibly missing) string property
lookup and `b` a string: `a` is used when it is present and truthy (a
nonempty string); a missing property (`undefined`) or an empty string falls
through to `b`. -/
def jsOrStr (a : Option String) (b : String) : String :=
  match a with
  | none => b
  | some s => if s = "" then b else s

/-- One locale's key → string table (a plain JS object, modelled as an
association list queried with `List.lookup`). -/
abbrev LocaleTable := List (String × String)

/-- The module-level `translations` object: locale → key → string. -/
abbrev Store := List (String × LocaleTable)

/-- The two-level lookup `translations[lang]?.[key]` (optional chaining):
`none` when the locale table or the key is missing. -/
def storeGet (tr : Store) (lang key : String) : Option String :=
  (tr.lookup lang).bind (fun t => t.lookup key)

/-- One DOM element as `translatePage` sees it: the attributes it reads
(`data-i18n`, `data-i18n-link`, `tagName`, presence of `placeholder`,
`children.length`, whether `firstChild` is a text node) and the state it
writes (`placeholder`, `value`, `textContent`). -/
structure Element where
  tagName : String
  dataI18n : Option String
  dataI18nLink : Option String
  placeholder : Option String
  value : String
  textContent : String
  childElemCount : Nat
  firstChildIsText : Bool
deriving DecidableEq, Repr

/-- Assigning `element.textContent = t`: all children are replaced by a
single text node (none at all when `t` is empty). -/
def setTextContent (e : Element) (t : String) : Element :=
  { e with textContent := t, childElemCount := 0, firstChildIsText := t ≠ "" }

/-- The body of the document: either ordinary markup, abstracted as the
list of its elements in document order, or the fixed "coming soon"
placeholder markup that the unsupported-locale path assigns wholesale via
`document.body.innerHTML` (a `div.container` > `div.panel` holding an
`h1.page-title` "Coming Soon" and a `p.page-subtitle` "This page is not yet
available in your language."; it contains no `data-i18n` markers, so a
traversal over it visits no elements). -/
inductive BodyContent where
  | html : List Element → BodyContent
  | comingSoonPanel : BodyContent
deriving DecidableEq, Repr

/-- The document state `translatePage` reads and mutates: the body and the
root element's `lang` attribute (`document.documentElement.lang`). -/
structure Document where
  body : BodyContent
  docLang : String
deriving DecidableEq, Repr

/-- Spec-side resolution formula, written from the spec's words for
comparison with the source: `store[resolvedLocale]?.[key] ?? store['en']?.[key]
?? key`, where `??` (nullish coalescing) falls through only on a missing
entry, never on a present empty string.  The source (line 59 of
`src/ifet/lang.js`) instead uses `||`, which also falls through on the
empty string; see the C2 counterexample. -/
def specResolveNullish (tr : Store) (lang key : String) : String :=
  (storeGet tr lang key).getD ((storeGet tr "en" key).getD key)

/-- The per-element step of the `querySelectorAll('[data-i18n]').forEach`
loop in `translatePage` (an element without the `data-i18n` attribute is
not selected, hence returned unchanged). -/
def translateElement (tr : Store) (lang : String) (e : Element) : Element :=
  match e.dataI18n with
  | none => e
  | some key =>
    let text := jsOrStr (storeGet tr lang key) (jsOrStr (storeGet tr "en" key) key)
    if e.tagName = "INPUT" || e.tagName = "TEXTAREA" then
      if e.placeholder.isSome then
        { e with placeholder := some text }
      else
        { e with value := text }
    else
      match e.dataI18nLink with
      | some linkKey =>
        let linkText := jsOrStr (storeGet tr lang linkKey) (jsOrStr (storeGet tr "en" linkKey) linkKey)
        setTextContent e linkText
      | none =>
        if e.childElemCount = 0 then
          setTextContent e text
        else
          if e.firstChildIsText ∧ e.childElemCount = 0 then
            setTextContent e text
          else
            e

/-- Map the element traversal over the body (the placeholder markup holds
no `data-i18n` elements, so it is traversed vacuously). -/
def mapBody (f : Element → Element) : BodyContent → BodyContent
  | .html es => .html (es.map f)
  | .comingSoonPanel => .comingSoonPanel

/-- Function `translatePage` from `src/ifet/lang.js`, as a function of the current
store (`translations`), the resolved locale (`currentLang`) and the
document state.  The unsupported-locale gate
`!translations[lang] && lang !== 'en' && lang !== 'ru'` replaces the body
with the fixed placeholder and returns before any element work and before
the `documentElement.lang` assignment. -/
def translatePage (tr : Store) (lang : String) (doc : Document) : Document :=
  if (tr.lookup lang).isNone ∧ lang ≠ "en" ∧ lang ≠ "ru" then
    { doc with body := .comingSoonPanel }
  else
    { body := mapBody (translateElement tr lang) doc.body, docLang := lang }

/-- Convenience: the gate condition of `translatePage`, exactly as the
source writes it (`!translations[lang] && lang !== 'en' && lang !== 'ru'`). -/
abbrev gateFires (tr : Store) (lang : String) : Prop :=
  (tr.lookup lang).isNone ∧ lang ≠ "en" ∧ lang ≠ "ru"

end Lang

namespace Feedback

/-- JS `a || b` where both operands are optional string values (environment
variables): a present nonempty string wins, otherwise fall through. -/
def jsOrOpt (a : Option String) (b : Option String) : Option String :=
  match a with
  | none => b
  | some s => if s = "" then b else some s

/-- JS truthiness of an optional string (`Boolean(v)` / `!v`): present and
nonempty. -/
def truthyStr (a : Option String) : Bool :=
  match a with
  | none => false
  | some s => s ≠ ""

/-- JS `String.prototype.trim` lifted to `String` (reusing the char-level
definition of the `Lang` namespace). -/
def jsTrimStr (s : String) : String := ⟨Lang.jsTrim s.data⟩

/-- Does `needle` start `hay`? (helper for JS `String.prototype.includes`). -/
def leadsWith : List Char → List Char → Bool
  | [], _ => true
  | _ :: _, [] => false
  | a :: as, b :: bs => a = b && leadsWith as bs

/-- JS `hay.includes(needle)`: does `needle` occur contiguously in `hay`? -/
def occursIn (needle hay : List Char) : Bool :=
  leadsWith needle hay ||
    match hay with
    | [] => false
    | _ :: t => occursIn needle t

/-- The environment variables `handler` reads (`process.env.*`); `none`
models an unset variable. -/
structure Env where
  BOT_TOKEN : Option String
  CHAT_ID : Option String
  ALLOWED_ORIGIN : Option String
  ALLOWED_ORIGINS : Option String
deriving DecidableEq, Repr

/-- JS `s.split(",")` at the character level: split at every comma,
keeping empty pieces (`"".split(",")` is `[""]`, `",".split(",")` is
`["", ""]`). -/
def splitComma : List Char → List (List Char)
  | [] => [[]]
  | c :: t =>
    if c = ',' then [] :: splitComma t
    else
      match splitComma t with
      | h :: r => (c :: h) :: r
      | [] => [[c]]

/-- Function `getAllowedOrigins` from `src/api/ifet/feedback.js`:
`(env.ALLOWED_ORIGINS || env.ALLOWED_ORIGIN || "*").trim()`, with `["*"]`
for an empty or wildcard result, otherwise the comma-split, trimmed,
nonempty entries. -/
def getAllowedOrigins (env : Env) : List String :=
  let raw := jsTrimStr ((jsOrOpt env.ALLOWED_ORIGINS (jsOrOpt env.ALLOWED_ORIGIN (some "*"))).getD "")
  if raw = "" || raw = "*" then ["*"]
  else (((splitComma raw.data).map (fun cs => jsTrimStr ⟨cs⟩)).filter (fun s => s ≠ ""))

/-- The CORS response headers `corsHeaders` builds; only the
`Access-Control-Allow-Origin` value varies, the rest are literals. -/
structure CorsHeaders where
  allowOrigin : String
  allowMethods : String
  allowHeaders : String
  maxAge : String
  vary : String
deriving DecidableEq, Repr

/-- Function `corsHeaders` from `src/api/ifet/feedback.js`. -/
def corsHeaders (requestOrigin : String) (allowedOrigins : List String) : CorsHeaders :=
  let allow :=
    if allowedOrigins.length = 0 then "*"
    else if allowedOrigins.contains "*" then "*"
    else if allowedOrigins.contains requestOrigin then requestOrigin
    else allowedOrigins.headD ""
  { allowOrigin := allow
    allowMethods := "POST, OPTIONS"
    allowHeaders := "Content-Type, Authorization"
    maxAge := "86400"
    vary := "Origin" }

/-- Function `safeStr` from `src/api/ifet/feedback.js` (the `v == null` guard is
resolved at call sites, which always pass a string): trim, then truncate to
`max` characters plus a one-character ellipsis when longer than `max`. -/
def safeStr (v : String) (max : Nat) : String :=
  let s := jsTrimStr v
  if s.length > max then ⟨s.data.take max⟩ ++ "…" else s

/-- The payload record the handler builds from either body shape (all
fields already passed through `safeStr`, hence strings). -/
structure Payload where
  typ : String
  lang : String
  email : String
  message : String
  timestamp : String
  userAgent : String
deriving DecidableEq, Repr

/-- Function `formatMessage` from `src/api/ifet/feedback.js`: the Telegram text,
with each optional line present only when its field is truthy (nonempty). -/
def formatMessage (p : Payload) : String :=
  let lines : List String :=
    ["📝 IFET feedback: " ++ safeStr (if p.typ = "" then "unknown" else p.typ) 40]
    ++ (if p.lang = "" then [] else ["🌐 lang: " ++ safeStr p.lang 20])
    ++ (if p.email = "" then [] else ["✉️ email: " ++ safeStr p.email 200])
    ++ (if p.userAgent = "" then [] else ["🧭 ua: " ++ safeStr p.userAgent 240])
    ++ (if p.message = "" then [] else ["\n" ++ safeStr p.message 3500])
    ++ (if p.timestamp = "" then [] else ["\n⏱ " ++ safeStr p.timestamp 80])
  String.intercalate "\n" lines

/-- A file-like value (has `arrayBuffer`) as it appears in form data. -/
structure AttachmentModel where
  name : Option String
  size : Nat
deriving DecidableEq, Repr

/-- A value returned by `FormData.get`: a plain string field or a file. -/
inductive FdValue where
  | str : String → FdValue
  | file : AttachmentModel → FdValue
deriving DecidableEq, Repr

/-- The form-data entries the handler reads (`fd.get(...)`; `none` models a
missing entry, i.e. JS `null`). -/
structure FormDataModel where
  typ : Option String
  lang : Option String
  email : Option String
  message : Option String
  timestamp : Option String
  userAgent : Option String
  attachment : Option FdValue
deriving DecidableEq, Repr

/-- The JSON body fields the handler reads (`body?.field`; `none` models a
missing field or a null body). -/
structure JsonBody where
  typ : Option String
  lang : Option String
  email : Option String
  message : Option String
  timestamp : Option String
  userAgent : Option String
deriving DecidableEq, Repr

/-- The request as the handler consumes it.  The two `await`ed body parses
are abstracted as `Except` inputs (`.error msg` models the promise
rejecting with that message, which the `catch` block turns into the
response's error string); only the branch the content type selects is ever
consulted. -/
structure RequestModel where
  method : String
  origin : Option String
  contentType : Option String
  formDataResult : Except String FormDataModel
  jsonResult : Except String JsonBody
deriving Repr

/-- The JSON value of a response body. -/
inductive RespBody where
  | okTrue
  | err : String → RespBody
  | diagnostics : Bool → Bool → List String → RespBody
  | empty
deriving DecidableEq, Repr

/-- A response: status code, JSON body, CORS headers. -/
structure ResponseModel where
  status : Nat
  body : RespBody
  cors : CorsHeaders
deriving DecidableEq, Repr

/-- The single Telegram API call a successful parse attempts: the text-only
`tgSendMessage` or the file-capable `tgSendDocument`, with the arguments
passed to it. -/
inductive TgCall where
  | sendMessage : String → TgCall
  | sendDocument : AttachmentModel → String → TgCall
deriving DecidableEq, Repr

/-- Response paired with the Telegram call attempted (if any). -/
structure HandlerResult where
  resp : ResponseModel
  call : Option TgCall
deriving Repr

/-- JS `a || b` for an optional string against a string default (shared
shape with the `Lang` namespace's operator, duplicated here so each
namespace is self-contained); used for the `fd.get(...) || ""` and
`body?.field || ""` field reads. -/
def jsOrStr (a : Option String) (b : String) : String :=
  match a with
  | none => b
  | some s => if s = "" then b else s

/-- The payload built on the multipart branch (lines 142–149 of the
source). -/
def buildFormPayload (fd : FormDataModel) : Payload :=
  { typ := safeStr (jsOrStr fd.typ "") 50
    lang := safeStr (jsOrStr fd.lang "") 10
    email := safeStr (jsOrStr fd.email "") 250
    message := safeStr (jsOrStr fd.message "") 6000
    timestamp := safeStr (jsOrStr fd.timestamp "") 80
    userAgent := safeStr (jsOrStr fd.userAgent "") 400 }

/-- The attachment extraction (lines 150–154): only a file-like value is
accepted, and a zero-size file is discarded. -/
def extractAttachment : Option FdValue → Option AttachmentModel
  | some (.file f) => if f.size = 0 then none else some f
  | _ => none

/-- The payload built on the JSON branch (lines 157–164). -/
def buildJsonPayload (b : JsonBody) : Payload :=
  { typ := safeStr (jsOrStr b.typ "") 50
    lang := safeStr (jsOrStr b.lang "") 10
    email := safeStr (jsOrStr b.email "") 250
    message := safeStr (jsOrStr b.message "") 6000
    timestamp := safeStr (jsOrStr b.timestamp "") 80
    userAgent := safeStr (jsOrStr b.userAgent "") 400 }

/-- The body-parsing part of the `try` block: choose the branch by
`ct.includes("multipart/form-data")` and produce the payload and the
attachment (always absent on the JSON branch). -/
def parseBody (req : RequestModel) (ct : String) :
    Except String (Payload × Option AttachmentModel) :=
  if occursIn "multipart/form-data".data ct.data then
    match req.formDataResult with
    | .error e => .error e
    | .ok fd => .ok (buildFormPayload fd, extractAttachment fd.attachment)
  else
    match req.jsonResult with
    | .error e => .error e
    | .ok b => .ok (buildJsonPayload b, none)

/-- Function `handler` from `src/api/ifet/feedback.js`.  The outcomes of the two
possible upstream calls are abstracted as `Except` inputs (`msgOutcome` for
`tgSendMessage`, `docOutcome` for `tgSendDocument`); `.error msg` models
the call throwing, which the `catch` block converts into a 500 response
carrying the message.  The result records the response and the one call
attempted, if any. -/
def handler (env : Env) (req : RequestModel)
    (msgOutcome docOutcome : Except String Unit) : HandlerResult :=
  let origin := req.origin.getD ""
  let allowedOrigins := getAllowedOrigins env
  let cors := corsHeaders origin allowedOrigins
  if req.method = "GET" then
    ⟨⟨200, .diagnostics (truthyStr env.BOT_TOKEN) (truthyStr env.CHAT_ID) allowedOrigins, cors⟩, none⟩
  else if req.method = "OPTIONS" then
    ⟨⟨204, .empty, cors⟩, none⟩
  else if req.method ≠ "POST" then
    ⟨⟨405, .err "Method not allowed", cors⟩, none⟩
  else if !truthyStr env.BOT_TOKEN || !truthyStr env.CHAT_ID then
    ⟨⟨500, .err "Server not configured (missing BOT_TOKEN/CHAT_ID)", cors⟩, none⟩
  else
    let ct := req.contentType.getD ""
    match parseBody req ct with
    | .error e => ⟨⟨500, .err e, cors⟩, none⟩
    | .ok (payload, attachment) =>
      let text := formatMessage payload
      match attachment with
      | some file =>
        match docOutcome with
        | .ok _ => ⟨⟨200, .okTrue, cors⟩, some (.sendDocument file text)⟩
        | .error e => ⟨⟨500, .err e, cors⟩, some (.sendDocument file text)⟩
      | none =>
        match msgOutcome with
        | .ok _ => ⟨⟨200, .okTrue, cors⟩, some (.sendMessage text)⟩
        | .error e => ⟨⟨500, .err e, cors⟩, some (.sendMessage text)⟩

end Feedback

namespace Lang

/-- C1: when the store has no entry for the resolved locale and the locale
is neither "en" nor "ru", `translatePage` replaces the whole body with the
fixed "Coming Soon" placeholder, performs no element substitution, and
leaves the root `lang` attribute unchanged — regardless of what other
entries (in particular English ones) the store holds and of the document's
contents. -/
theorem gate_shows_coming_soon (tr : Store) (lang : String) (doc : Document)
    (hmiss : tr.lookup lang = none) (hen : lang ≠ "en") (hru : lang ≠ "ru") :
    translatePage tr lang doc =
      { body := BodyContent.comingSoonPanel, docLang := doc.docLang } := by
  unfold translatePage
  rw [if_pos ⟨by simp [hmiss], hen, hru⟩]

/-- Witness for C1: a store holding only English entries, a French locale,
and a marked element in the body; the result is the placeholder body with
the original root language attribute. -/
theorem gate_shows_coming_soon_witness :
    translatePage [("en", [("title", "Hello")])] "fr"
        { body := .html [{ tagName := "H1", dataI18n := some "title",
                           dataI18nLink := none, placeholder := none,
                           value := "", textContent := "old", childElemCount := 0,
                           firstChildIsText := true }],
          docLang := "xx" } =
      { body := BodyContent.comingSoonPanel, docLang := "xx" } :=
  gate_shows_coming_soon _ _ _ (by decide) (by decide) (by decide)

/-- Helper for C5: one element step is idempotent — all attributes the
dispatch consults (`data-i18n`, `data-i18n-link`, `tagName`, presence of
`placeholder`) survive the first pass, and the written fields are functions
of those attributes and the store only. -/
theorem translateElement_idem (tr : Store) (lang : String) (e : Element) :
    translateElement tr lang (translateElement tr lang e) = translateElement tr lang e := by
  obtain ⟨tag, di, dil, ph, v, tc, cc, ft⟩ := e
  cases di with
  | none => rfl
  | some key =>
    cases dil with
    | none =>
      cases ph with
      | none =>
        by_cases h1 : tag = "INPUT" <;> by_cases h2 : tag = "TEXTAREA" <;>
          by_cases h3 : cc = 0 <;>
          simp [translateElement, setTextContent, h1, h2, h3]
      | some p =>
        by_cases h1 : tag = "INPUT" <;> by_cases h2 : tag = "TEXTAREA" <;>
          by_cases h3 : cc = 0 <;>
          simp [translateElement, setTextContent, h1, h2, h3]
    | some linkKey =>
      cases ph with
      | none =>
        by_cases h1 : tag = "INPUT" <;> by_cases h2 : tag = "TEXTAREA" <;>
          simp [translateElement, setTextContent, h1, h2]
      | some p =>
        by_cases h1 : tag = "INPUT" <;> by_cases h2 : tag = "TEXTAREA" <;>
          simp [translateElement, setTextContent, h1, h2]

/-- C5: `translatePage` is idempotent — a second call with the same store
and locale reproduces the document state of the first call exactly, on both
the gate path and the substitution path. -/
theorem translatePage_idempotent (tr : Store) (lang : String) (doc : Document) :
    translatePage tr lang (translatePage tr lang doc) = translatePage tr lang doc := by
  by_cases hg : (tr.lookup lang).isNone ∧ lang ≠ "en" ∧ lang ≠ "ru"
  · unfold translatePage
    rw [if_pos hg, if_pos hg]
  · unfold translatePage
    rw [if_neg hg, if_neg hg]
    cases doc.body with
    | comingSoonPanel => rfl
    | html es =>
      simp only [mapBody, List.map_map, Document.mk.injEq, BodyContent.html.injEq, and_true]
      exact List.map_congr_left (fun e _ => translateElement_idem tr lang e)

/-- C6 counterexample: a marked non-input element that carries the
`data-i18n-link` marker and has one element child does NOT keep its HTML
content — the link branch of `translatePage` runs before the children
check and overwrites `textContent` unconditionally, flattening the child
away.  (Store empty, locale "en", so the gate does not fire and the link
key resolves to itself.) -/
theorem nested_link_counterexample :
    translatePage [] "en"
        { body := .html [{ tagName := "P", dataI18n := some "k",
                           dataI18nLink := some "lk", placeholder := none,
                           value := "", textContent := "outer", childElemCount := 1,
                           firstChildIsText := false }],
          docLang := "en" } ≠
      { body := .html [{ tagName := "P", dataI18n := some "k",
                         dataI18nLink := some "lk", placeholder := none,
                         value := "", textContent := "outer", childElemCount := 1,
                         firstChildIsText := false }],
        docLang := "en" } := by
  decide

/-- C6 (amended): a marked non-input element WITHOUT the `data-i18n-link`
marker that has at least one element child is left completely unchanged by
`translatePage` — both as an element step and through a whole-page run on
the substitution path. -/
theorem nested_children_untouched (tr : Store) (lang dl : String) (e : Element)
    (hmark : e.dataI18n.isSome) (hin : e.tagName ≠ "INPUT") (hta : e.tagName ≠ "TEXTAREA")
    (hlink : e.dataI18nLink = none) (hch : e.childElemCount ≠ 0)
    (hgate : ¬ gateFires tr lang) :
    translateElement tr lang e = e ∧
      translatePage tr lang { body := .html [e], docLang := dl } =
        { body := .html [e], docLang := lang } := by
  have helem : translateElement tr lang e = e := by
    obtain ⟨tag, di, dil, ph, v, tc, cc, ft⟩ := e
    cases di with
    | none => rfl
    | some key =>
      cases hlink
      simp_all [translateElement]
  refine ⟨helem, ?_⟩
  unfold translatePage
  rw [if_neg hgate]
  simp [mapBody, helem]

/-- Witness for C6: a `DIV` holding one nested element child, a store with
a translation for its key, on the "ru" locale — the element survives a page
run untouched. -/
theorem nested_children_untouched_witness :
    translateElement [("ru", [("k", "Privet")])] "ru"
        { tagName := "DIV", dataI18n := some "k", dataI18nLink := none,
          placeholder := none, value := "", textContent := "outer",
          childElemCount := 2, firstChildIsText := false } =
      { tagName := "DIV", dataI18n := some "k", dataI18nLink := none,
        placeholder := none, value := "", textContent := "outer",
        childElemCount := 2, firstChildIsText := false } ∧
    translatePage [("ru", [("k", "Privet")])] "ru"
        { body := .html [{ tagName := "DIV", dataI18n := some "k", dataI18nLink := none,
                           placeholder := none, value := "", textContent := "outer",
                           childElemCount := 2, firstChildIsText := false }],
          docLang := "en" } =
      { body := .html [{ tagName := "DIV", dataI18n := some "k", dataI18nLink := none,
                         placeholder := none, value := "", textContent := "outer",
                         childElemCount := 2, firstChildIsText := false }],
        docLang := "ru" } :=
  nested_children_untouched _ _ _ _ (by decide) (by decide) (by decide) (by decide)
    (by decide) (by decide)

/-- C2 counterexample: with `{ru: {k: ""}, en: {k: "Hello"}}` and locale
"ru", the spec's nullish formula `store[L]?.[k] ?? store['en']?.[k] ?? k`
yields `""`, but the code's `||` chain substitutes `"Hello"` — a present
empty-string entry is NOT used.  The page after `translatePage` therefore
differs from what the claim predicts for the marked element. -/
theorem substitution_nullish_counterexample :
    specResolveNullish [("ru", [("k", "")]), ("en", [("k", "Hello")])] "ru" "k" = "" ∧
    ¬ ((translatePage [("ru", [("k", "")]), ("en", [("k", "Hello")])] "ru"
          { body := .html [{ tagName := "P", dataI18n := some "k",
                             dataI18nLink := none, placeholder := none,
                             value := "", textContent := "old", childElemCount := 0,
                             firstChildIsText := true }],
            docLang := "en" }).body =
        .html [setTextContent
                { tagName := "P", dataI18n := some "k",
                  dataI18nLink := none, placeholder := none,
                  value := "", textContent := "old", childElemCount := 0,
                  firstChildIsText := true }
                (specResolveNullish [("ru", [("k", "")]), ("en", [("k", "Hello")])] "ru" "k")]) := by
  decide

/-- C2 (amended): the substituted string is
`store[L]?.[k] || store['en']?.[k] || k` — the active-locale entry is used
whenever it is present AND nonempty; a missing or empty entry falls through
to English, then to the literal key.  Stated through a whole-page run for a
plain marked text element on the substitution path. -/
theorem translate_uses_js_or_fallback (tr : Store) (lang dl key : String) (e : Element)
    (hk : e.dataI18n = some key) (hin : e.tagName ≠ "INPUT") (hta : e.tagName ≠ "TEXTAREA")
    (hlink : e.dataI18nLink = none) (hch : e.childElemCount = 0)
    (hgate : ¬ gateFires tr lang) :
    translatePage tr lang { body := .html [e], docLang := dl } =
      { body := .html [setTextContent e
            (jsOrStr (storeGet tr lang key) (jsOrStr (storeGet tr "en" key) key))],
        docLang := lang } := by
  unfold translatePage
  rw [if_neg hgate]
  obtain ⟨tag, di, dil, ph, v, tc, cc, ft⟩ := e
  simp only [Option.some.injEq] at hk
  cases hk
  cases hlink
  simp_all [mapBody, translateElement, setTextContent]

/-- Witness for C2 (amended): locale "ru" with an empty "ru" entry falls
back to the English string. -/
theorem translate_uses_js_or_fallback_witness :
    translatePage [("ru", [("k", "")]), ("en", [("k", "Hello")])] "ru"
        { body := .html [{ tagName := "P", dataI18n := some "k",
                           dataI18nLink := none, placeholder := none,
                           value := "", textContent := "old", childElemCount := 0,
                           firstChildIsText := true }],
          docLang := "en" } =
      { body := .html [{ tagName := "P", dataI18n := some "k",
                         dataI18nLink := none, placeholder := none,
                         value := "", textContent := "Hello", childElemCount := 0,
                         firstChildIsText := true }],
        docLang := "ru" } := by
  have h := translate_uses_js_or_fallback [("ru", [("k", "")]), ("en", [("k", "Hello")])]
    "ru" "en" "k"
    { tagName := "P", dataI18n := some "k", dataI18nLink := none, placeholder := none,
      value := "", textContent := "old", childElemCount := 0, firstChildIsText := true }
    (by decide) (by decide) (by decide) (by decide) (by decide) (by decide)
  rw [h]
  decide

/-- Dropping while a predicate holds over an append: the left part either is consumed entirely
or absorbs the whole drop. -/
theorem dropWhile_app (p : Char → Bool) (l₁ l₂ : List Char) :
    (l₁ ++ l₂).dropWhile p =
      if (l₁.dropWhile p).isEmpty then l₂.dropWhile p else l₁.dropWhile p ++ l₂ := by
  induction l₁ with
  | nil => simp
  | cons a t ih =>
    by_cases h : p a
    · simpa [List.dropWhile_cons, h] using ih
    · simp [List.dropWhile_cons, h]

/-- Trailing-whitespace removal never crosses a non-whitespace character:
it acts only on the part after the last such character. -/
theorem trimRight_append_keep (l r : List Char) (c : Char) (hc : wsChar c = false) :
    trimRight (l ++ c :: r) = l ++ c :: trimRight r := by
  unfold trimRight
  rw [List.reverse_append, List.reverse_cons, List.append_assoc, List.singleton_append,
    dropWhile_app]
  by_cases h : (r.reverse.dropWhile wsChar).isEmpty
  · rw [if_pos h]
    rw [List.isEmpty_iff] at h
    simp [List.dropWhile_cons, hc, h]
  · rw [if_neg h]
    simp

/-- Leading-whitespace removal leaves a list starting with non-whitespace
characters intact. -/
theorem trimLeft_keep (l : List Char) (hl : ∀ c ∈ l, wsChar c = false)
    (c0 : Char) (hc : wsChar c0 = false) (r : List Char) :
    trimLeft (l ++ c0 :: r) = l ++ c0 :: r := by
  cases l with
  | nil => simp [trimLeft, List.dropWhile_cons, hc]
  | cons a t =>
    have ha : wsChar a = false := hl a (by simp)
    simp [trimLeft, List.dropWhile_cons, ha]

/-- Taking `split('-')[0]` over a hyphen-free part followed by a hyphen yields
exactly that part. -/
theorem takeBeforeHyphen_append (l x : List Char) (hl : ∀ c ∈ l, c ≠ '-') :
    takeBeforeHyphen (l ++ '-' :: x) = l := by
  induction l with
  | nil => simp [takeBeforeHyphen, List.takeWhile_cons]
  | cons a t ih =>
    have ha : a ≠ '-' := hl a (by simp)
    simp only [takeBeforeHyphen, List.cons_append, List.takeWhile_cons, decide_eq_true ha]
    exact congrArg (a :: ·) (ih (fun c hc => hl c (by simp [hc])))

/-- The normalization pipeline maps `L-R` to `L` whenever `L` is free of
whitespace, hyphens, and uppercase letters (as every supported code is),
for an arbitrary suffix `R`. -/
theorem normalizeLang_hyphen (L R : List Char)
    (h1 : ∀ c ∈ L, wsChar c = false) (h2 : ∀ c ∈ L, lowerChar c = c)
    (h3 : ∀ c ∈ L, c ≠ '-') :
    normalizeLang (L ++ '-' :: R) = L := by
  unfold normalizeLang jsTrim jsLower
  rw [trimLeft_keep L h1 '-' (by decide) R, trimRight_append_keep L R '-' (by decide),
    List.map_append, List.map_cons]
  have hmapL : L.map lowerChar = L := by
    rw [List.map_congr_left (g := id) (fun a ha => h2 a ha), List.map_id]
  rw [hmapL, show lowerChar '-' = '-' from by decide]
  exact takeBeforeHyphen_append L _ h3

/-- Every supported locale code is whitespace-free, lowercase,
hyphen-free, and a member of the list (checked by evaluation). -/
theorem supported_locale_props :
    ∀ M ∈ SUPPORTED_LOCALES,
      (∀ c ∈ M, wsChar c = false ∧ lowerChar c = c ∧ c ≠ '-') ∧
        SUPPORTED_LOCALES.contains M = true := by
  decide

/-- C3: for every supported locale code `L` and every regional suffix `R`,
`detectLanguage` on a URL whose `lang` parameter value is `L-R` returns `L`
(whatever the href-fallback input holds): the value is trimmed, lowercased
and truncated at the first hyphen before the membership check. -/
theorem detectLanguage_regional_variant (L : List Char) (hL : L ∈ SUPPORTED_LOCALES)
    (R : List Char) (fb : JsResult (Option (List Char))) :
    detectLanguage (.ok (some (L ++ '-' :: R))) fb = L := by
  obtain ⟨hchars, hmem⟩ := supported_locale_props L hL
  have hnorm : normalizeLang (L ++ '-' :: R) = L :=
    normalizeLang_hyphen L R (fun c hc => (hchars c hc).1) (fun c hc => (hchars c hc).2.1)
      (fun c hc => (hchars c hc).2.2)
  simp [detectLanguage, hnorm, hL]

/-- Witness for C3: `lang=ru-RU` resolves to `ru`. -/
theorem detectLanguage_regional_variant_witness :
    "ru".data ∈ SUPPORTED_LOCALES ∧
      detectLanguage (.ok (some ("ru".data ++ '-' :: "RU".data))) (.ok none) = "ru".data :=
  ⟨by decide, detectLanguage_regional_variant "ru".data (by decide) "RU".data (.ok none)⟩

/-- C4: whenever neither the primary parameter value nor the href-fallback
value normalizes to a supported code — the parameter is absent, empty, an
unknown code, garbage, or an intermediate step throws — `detectLanguage`
returns the default locale "en".  The embedding is total, so the function
never fails on any input. -/
theorem detectLanguage_malformed_default (p f : JsResult (Option (List Char)))
    (hp : ∀ s : Option (List Char), p = .ok s →
      SUPPORTED_LOCALES.contains (normalizeLang (s.getD [])) = false)
    (hf : ∀ m : List Char, f = .ok (some m) →
      SUPPORTED_LOCALES.contains (normalizeLang m) = false) :
    detectLanguage p f = DEFAULT_LOCALE := by
  cases p with
  | thrown => rfl
  | ok s =>
    have h1 : normalizeLang (s.getD []) ∉ SUPPORTED_LOCALES := by simpa using hp s rfl
    cases f with
    | thrown => simp [detectLanguage, h1]
    | ok m =>
      cases m with
      | none => simp [detectLanguage, h1]
      | some mv =>
        have h2 : normalizeLang mv ∉ SUPPORTED_LOCALES := by simpa using hf mv rfl
        simp [detectLanguage, h1, h2]

/-- Witness for C4: an unknown regional code in the parameter and no
href match yield "en". -/
theorem detectLanguage_malformed_default_witness :
    detectLanguage (.ok (some "xx-YY".data)) (.ok none) = DEFAULT_LOCALE :=
  detectLanguage_malformed_default _ _
    (by intro s hs; cases hs; decide)
    (by intro m hm; simp at hm)

end Lang

namespace Feedback

/-- C9 counterexample: a six-character field with limit 3 is forwarded as
four characters (`"abc…"`): `safeStr` slices to `max` characters and then
APPENDS a one-character ellipsis, so the result exceeds the configured
per-field maximum. -/
theorem safeStr_exceeds_max_counterexample :
    ¬ (safeStr "abcdef" 3).length ≤ 3 := by
  decide

/-- C9 (amended): `safeStr` bounds every forwarded field at `max + 1`
characters — at most `max` characters of the (trimmed) original value plus
one ellipsis character when truncation occurred. -/
theorem safeStr_length_bound (v : String) (max : Nat) :
    (safeStr v max).length ≤ max + 1 := by
  unfold safeStr
  by_cases h : (jsTrimStr v).length > max
  · rw [if_pos h]
    rw [String.length_append]
    have ht : (String.mk ((jsTrimStr v).data.take max)).length ≤ max := by
      show ((jsTrimStr v).data.take max).length ≤ max
      simp
    have he : ("…" : String).length = 1 := by decide
    omega
  · rw [if_neg h]
    omega

/-- Helper for C10: the `Access-Control-Allow-Origin` value is either the
wildcard or a member of the configured list, and an origin outside a
non-wildcard list is answered with the first configured origin, never
echoed. -/
theorem corsAllow_cases (o : String) (A : List String) :
    ((corsHeaders o A).allowOrigin = "*" ∨ (corsHeaders o A).allowOrigin ∈ A) ∧
      (A ≠ [] → "*" ∉ A → o ∉ A → (corsHeaders o A).allowOrigin = A.headD "") := by
  cases A with
  | nil => exact ⟨Or.inl rfl, fun h => absurd rfl h⟩
  | cons a t =>
    constructor
    · by_cases hw : ("*" : String) = a ∨ ("*" : String) ∈ t
      · left
        simp [corsHeaders, hw]
      · by_cases ho : o = a ∨ o ∈ t
        · right
          simp [corsHeaders, hw, ho, List.mem_cons]
        · right
          simp [corsHeaders, hw, ho]
    · intro _ hnw hno
      have hw : ¬ (("*" : String) = a ∨ ("*" : String) ∈ t) := by
        simpa [List.mem_cons] using hnw
      have ho : ¬ (o = a ∨ o ∈ t) := by
        simpa [List.mem_cons] using hno
      simp [corsHeaders, hw, ho]

/-- C10: for every environment configuration and every request origin, the
`Access-Control-Allow-Origin` header `handler` derives (via
`getAllowedOrigins` and `corsHeaders`) is either `"*"` or a member of the
configured allow-list; an origin outside a non-wildcard, nonempty list is
never echoed back — the header falls back to the first configured origin. -/
theorem corsHeaders_allowlist (env : Env) (o : String) :
    ((corsHeaders o (getAllowedOrigins env)).allowOrigin = "*" ∨
        (corsHeaders o (getAllowedOrigins env)).allowOrigin ∈ getAllowedOrigins env) ∧
      (getAllowedOrigins env ≠ [] → "*" ∉ getAllowedOrigins env →
        o ∉ getAllowedOrigins env →
        (corsHeaders o (getAllowedOrigins env)).allowOrigin = (getAllowedOrigins env).headD "") :=
  corsAllow_cases o (getAllowedOrigins env)

/-- Witness for C10: with `ALLOWED_ORIGINS="https://a.example,https://b.example"`,
an unlisted origin gets the first configured origin, not an echo. -/
theorem corsHeaders_allowlist_witness :
    (corsHeaders "https://evil.example"
        (getAllowedOrigins
          { BOT_TOKEN := none, CHAT_ID := none, ALLOWED_ORIGIN := none,
            ALLOWED_ORIGINS := some "https://a.example,https://b.example" })).allowOrigin =
      "https://a.example" := by
  have h := (corsHeaders_allowlist
    { BOT_TOKEN := none, CHAT_ID := none, ALLOWED_ORIGIN := none,
      ALLOWED_ORIGINS := some "https://a.example,https://b.example" }
    "https://evil.example").2 (by decide) (by decide) (by decide)
  rw [h]
  decide

/-- Helper: inversion of the attachment extraction — it yields a file
exactly when the form field holds a file-like value of nonzero size. -/
theorem extractAttachment_eq_some (v : Option FdValue) (f : AttachmentModel) :
    extractAttachment v = some f ↔ v = some (.file f) ∧ f.size ≠ 0 := by
  cases v with
  | none => simp [extractAttachment]
  | some fv =>
    cases fv with
    | str s => simp [extractAttachment]
    | file g =>
      by_cases h : g.size = 0
      · simp [extractAttachment, h]
        intro hgf
        subst hgf
        exact h
      · simp [extractAttachment, h]
        intro hgf
        subst hgf
        exact h

/-- C7: the feedback handler's response statuses — 405 for a method other
than GET/OPTIONS/POST, 500 with the configuration error for a POST without
upstream credentials, 200 `{ok:true}` for a POST whose body parse and
upstream delivery succeed, and 500 `{ok:false, error:<message>}` for any
failure during body parsing or upstream delivery. -/
theorem handler_status_codes (env : Env) (req : RequestModel) (m d : Except String Unit) :
    (req.method ≠ "GET" → req.method ≠ "OPTIONS" → req.method ≠ "POST" →
      (handler env req m d).resp.status = 405 ∧
        (handler env req m d).resp.body = .err "Method not allowed") ∧
    (req.method = "POST" →
      (truthyStr env.BOT_TOKEN = false ∨ truthyStr env.CHAT_ID = false) →
      (handler env req m d).resp.status = 500 ∧
        (handler env req m d).resp.body =
          .err "Server not configured (missing BOT_TOKEN/CHAT_ID)") ∧
    (∀ p att, req.method = "POST" →
      truthyStr env.BOT_TOKEN = true → truthyStr env.CHAT_ID = true →
      parseBody req (req.contentType.getD "") = .ok (p, att) →
      (att = none → m = .ok ()) → (∀ f, att = some f → d = .ok ()) →
      (handler env req m d).resp.status = 200 ∧
        (handler env req m d).resp.body = .okTrue) ∧
    (∀ e, req.method = "POST" →
      truthyStr env.BOT_TOKEN = true → truthyStr env.CHAT_ID = true →
      (parseBody req (req.contentType.getD "") = .error e ∨
        (∃ p, parseBody req (req.contentType.getD "") = .ok (p, none) ∧ m = .error e) ∨
        (∃ p f, parseBody req (req.contentType.getD "") = .ok (p, some f) ∧ d = .error e)) →
      (handler env req m d).resp.status = 500 ∧
        (handler env req m d).resp.body = .err e) := by
  refine ⟨?_, ?_, ?_, ?_⟩
  · intro h1 h2 h3
    simp [handler, h1, h2, h3]
  · intro hm hcfg
    rcases hcfg with hb | hc
    · simp [handler, hm, hb]
    · simp [handler, hm, hc]
  · intro p att hm hb hc hpb hmok hdok
    cases att with
    | none =>
      have hmo := hmok rfl
      simp [handler, hm, hb, hc, hpb, hmo]
    | some f =>
      have hdo := hdok f rfl
      simp [handler, hm, hb, hc, hpb, hdo]
  · intro e hm hb hc hfail
    rcases hfail with hpe | ⟨p, hpb, hme⟩ | ⟨p, f, hpb, hde⟩
    · simp [handler, hm, hb, hc, hpe]
    · simp [handler, hm, hb, hc, hpb, hme]
    · simp [handler, hm, hb, hc, hpb, hde]

/-- Witness for C7: concrete requests hitting the 405, 500-unconfigured,
200-success and 500-parse-failure paths. -/
theorem handler_status_codes_witness :
    ((handler ⟨some "t", some "c", none, none⟩
        ⟨"PUT", none, none, .error "x", .error "x"⟩ (.ok ()) (.ok ())).resp.status = 405 ∧
      (handler ⟨some "t", some "c", none, none⟩
        ⟨"PUT", none, none, .error "x", .error "x"⟩ (.ok ()) (.ok ())).resp.body =
          .err "Method not allowed") ∧
    ((handler ⟨none, some "c", none, none⟩
        ⟨"POST", none, none, .error "x", .error "x"⟩ (.ok ()) (.ok ())).resp.status = 500) ∧
    ((handler ⟨some "t", some "c", none, none⟩
        ⟨"POST", none, none, .error "x", .ok ⟨none, none, none, none, none, none⟩⟩
        (.ok ()) (.ok ())).resp.status = 200 ∧
      (handler ⟨some "t", some "c", none, none⟩
        ⟨"POST", none, none, .error "x", .ok ⟨none, none, none, none, none, none⟩⟩
        (.ok ()) (.ok ())).resp.body = .okTrue) ∧
    ((handler ⟨some "t", some "c", none, none⟩
        ⟨"POST", none, none, .error "x", .error "bad json"⟩ (.ok ()) (.ok ())).resp.status = 500 ∧
      (handler ⟨some "t", some "c", none, none⟩
        ⟨"POST", none, none, .error "x", .error "bad json"⟩ (.ok ()) (.ok ())).resp.body =
          .err "bad json") := by
  refine ⟨?_, ?_, ?_, ?_⟩
  · exact (handler_status_codes ⟨some "t", some "c", none, none⟩
      ⟨"PUT", none, none, .error "x", .error "x"⟩ (.ok ()) (.ok ())).1
      (by decide) (by decide) (by decide)
  · exact ((handler_status_codes ⟨none, some "c", none, none⟩
      ⟨"POST", none, none, .error "x", .error "x"⟩ (.ok ()) (.ok ())).2.1
      rfl (Or.inl rfl)).1
  · exact (handler_status_codes ⟨some "t", some "c", none, none⟩
      ⟨"POST", none, none, .error "x", .ok ⟨none, none, none, none, none, none⟩⟩
      (.ok ()) (.ok ())).2.2.1
      (buildJsonPayload ⟨none, none, none, none, none, none⟩) none rfl (by decide) (by decide)
      rfl
      (fun _ => rfl) (fun f hf => by simp at hf)
  · exact (handler_status_codes ⟨some "t", some "c", none, none⟩
      ⟨"POST", none, none, .error "x", .error "bad json"⟩ (.ok ()) (.ok ())).2.2.2
      "bad json" rfl (by decide) (by decide) (Or.inl rfl)

/-- C8: on a POST that reaches forwarding (configured credentials, body
parse succeeded), the handler attempts the file-capable `sendDocument`
call exactly when the request is multipart and its `attachment` form entry
is a file of nonzero size; in every other case — no attachment, a
zero-size attachment, a non-file value, or a JSON body — it attempts the
text-only `sendMessage` call. -/
theorem handler_send_choice (env : Env) (req : RequestModel) (m d : Except String Unit)
    (hm : req.method = "POST")
    (hb : truthyStr env.BOT_TOKEN = true) (hc : truthyStr env.CHAT_ID = true) :
    (∀ fd f, occursIn "multipart/form-data".data (req.contentType.getD "").data = true →
      req.formDataResult = .ok fd → fd.attachment = some (.file f) → f.size ≠ 0 →
      (handler env req m d).call =
        some (.sendDocument f (formatMessage (buildFormPayload fd)))) ∧
    (∀ fd, occursIn "multipart/form-data".data (req.contentType.getD "").data = true →
      req.formDataResult = .ok fd → extractAttachment fd.attachment = none →
      (handler env req m d).call =
        some (.sendMessage (formatMessage (buildFormPayload fd)))) ∧
    (∀ b, occursIn "multipart/form-data".data (req.contentType.getD "").data = false →
      req.jsonResult = .ok b →
      (handler env req m d).call =
        some (.sendMessage (formatMessage (buildJsonPayload b)))) ∧
    (∀ f c, (handler env req m d).call = some (.sendDocument f c) →
      occursIn "multipart/form-data".data (req.contentType.getD "").data = true ∧
        ∃ fd, req.formDataResult = .ok fd ∧
          fd.attachment = some (.file f) ∧ f.size ≠ 0) := by
  refine ⟨?_, ?_, ?_, ?_⟩
  · intro fd f hct hfd hatt hsz
    have hext : extractAttachment fd.attachment = some f :=
      (extractAttachment_eq_some fd.attachment f).mpr ⟨hatt, hsz⟩
    cases d with
    | ok u => simp [handler, parseBody, hm, hb, hc, hct, hfd, hext]
    | error e => simp [handler, parseBody, hm, hb, hc, hct, hfd, hext]
  · intro fd hct hfd hext
    cases m with
    | ok u => simp [handler, parseBody, hm, hb, hc, hct, hfd, hext]
    | error e => simp [handler, parseBody, hm, hb, hc, hct, hfd, hext]
  · intro b hct hjs
    cases m with
    | ok u => simp [handler, parseBody, hm, hb, hc, hct, hjs]
    | error e => simp [handler, parseBody, hm, hb, hc, hct, hjs]
  · intro f c hcall
    by_cases hct : occursIn "multipart/form-data".data (req.contentType.getD "").data = true
    · refine ⟨hct, ?_⟩
      cases hfd : req.formDataResult with
      | error e =>
        simp [handler, parseBody, hm, hb, hc, hct, hfd] at hcall
      | ok fd =>
        refine ⟨fd, rfl, ?_⟩
        cases hext : extractAttachment fd.attachment with
        | none =>
          cases m with
          | ok u => simp [handler, parseBody, hm, hb, hc, hct, hfd, hext] at hcall
          | error e => simp [handler, parseBody, hm, hb, hc, hct, hfd, hext] at hcall
        | some g =>
          have hga := (extractAttachment_eq_some fd.attachment g).mp hext
          have hfg : g = f := by
            cases d with
            | ok u =>
              simp [handler, parseBody, hm, hb, hc, hct, hfd, hext] at hcall
              exact hcall.1
            | error e =>
              simp [handler, parseBody, hm, hb, hc, hct, hfd, hext] at hcall
              exact hcall.1
          rw [← hfg]
          exact hga
    · exfalso
      have hct2 : occursIn "multipart/form-data".data (req.contentType.getD "").data = false := by
        simpa using hct
      cases hjs : req.jsonResult with
      | error e =>
        simp [handler, parseBody, hm, hb, hc, hct2, hjs] at hcall
      | ok b =>
        cases m with
        | ok u => simp [handler, parseBody, hm, hb, hc, hct2, hjs] at hcall
        | error e => simp [handler, parseBody, hm, hb, hc, hct2, hjs] at hcall

/-- Witness for C8: a multipart request with a 3-byte attachment triggers
`sendDocument`; the same request with a zero-size attachment and a JSON
request trigger `sendMessage`. -/
theorem handler_send_choice_witness :
    (handler ⟨some "t", some "c", none, none⟩
        ⟨"POST", none, some "multipart/form-data; boundary=x",
          .ok ⟨some "bug", none, none, some "hi", none, none, some (.file ⟨some "log.txt", 3⟩)⟩,
          .error "unused"⟩ (.ok ()) (.ok ())).call =
      some (.sendDocument ⟨some "log.txt", 3⟩
        (formatMessage (buildFormPayload
          ⟨some "bug", none, none, some "hi", none, none, some (.file ⟨some "log.txt", 3⟩)⟩))) ∧
    (handler ⟨some "t", some "c", none, none⟩
        ⟨"POST", none, some "multipart/form-data; boundary=x",
          .ok ⟨some "bug", none, none, some "hi", none, none, some (.file ⟨some "log.txt", 0⟩)⟩,
          .error "unused"⟩ (.ok ()) (.ok ())).call =
      some (.sendMessage (formatMessage (buildFormPayload
        ⟨some "bug", none, none, some "hi", none, none, some (.file ⟨some "log.txt", 0⟩)⟩))) ∧
    (handler ⟨some "t", some "c", none, none⟩
        ⟨"POST", none, some "application/json", .error "unused",
          .ok ⟨some "bug", none, none, some "hi", none, none⟩⟩ (.ok ()) (.ok ())).call =
      some (.sendMessage (formatMessage (buildJsonPayload
        ⟨some "bug", none, none, some "hi", none, none⟩))) := by
  refine ⟨?_, ?_, ?_⟩
  · exact (handler_send_choice ⟨some "t", some "c", none, none⟩
      ⟨"POST", none, some "multipart/form-data; boundary=x",
        .ok ⟨some "bug", none, none, some "hi", none, none, some (.file ⟨some "log.txt", 3⟩)⟩,
        .error "unused"⟩ (.ok ()) (.ok ()) rfl (by decide) (by decide)).1
      ⟨some "bug", none, none, some "hi", none, none, some (.file ⟨some "log.txt", 3⟩)⟩
      ⟨some "log.txt", 3⟩ (by decide) rfl rfl (by decide)
  · exact (handler_send_choice ⟨some "t", some "c", none, none⟩
      ⟨"POST", none, some "multipart/form-data; boundary=x",
        .ok ⟨some "bug", none, none, some "hi", none, none, some (.file ⟨some "log.txt", 0⟩)⟩,
        .error "unused"⟩ (.ok ()) (.ok ()) rfl (by decide) (by decide)).2.1
      ⟨some "bug", none, none, some "hi", none, none, some (.file ⟨some "log.txt", 0⟩)⟩
      (by decide) rfl (by decide)
  · exact (handler_send_choice ⟨some "t", some "c", none, none⟩
      ⟨"POST", none, some "application/json", .error "unused",
        .ok ⟨some "bug", none, none, some "hi", none, none⟩⟩ (.ok ()) (.ok ()) rfl
      (by decide) (by decide)).2.2.1
      ⟨some "bug", none, none, some "hi", none, none⟩ (by decide) rfl

end Feedback
